import Mathlib

/-!
Shallow embedding of kraken/lib/models.py: the TorchSeqRecognizer inference
wrapper and the load_any model-loading fallback chain.

External collaborators (the TorchVGSLModel loaders and container, the os.path
normalization primitives, the CTC decoder and the label codec) are parameters
of the embedding: function-valued fields of the Env and recognizer structures.
A loader or library call that raises is modelled as an Except.error value;
mutation of the recognizer (self.outputs) is modelled by returning the updated
recognizer alongside the result.
-/

namespace Kraken

/-- Device identifiers (torch device strings such as "cpu"). -/
abbrev Device := String

/-- A decoder location tuple (class, start, end, max), as produced by the
kraken.lib.ctc_decoder decoders. Scores are abstracted to naturals. -/
abbrev LTuple := Nat × Nat × Nat × Nat

/-- A codec decoding tuple (text, start, end, confidence). -/
abbrev DTuple := String × Nat × Nat × Nat

/-- The label codec attached to a network: maps decoder location tuples to
text spans (kraken.lib.codec, external to models.py). -/
structure Codec where
  decode : List LTuple → List DTuple

/-- Torch module mode, toggled by Module.train() / Module.eval(). -/
inductive Mode where
  | trainM : Mode
  | evalM : Mode
deriving DecidableEq

/-- A torch tensor, abstracted to its shape, its device and its (otherwise
uninterpreted) flat contents. -/
structure Tensor where
  shape : List Nat
  device : Device
  contents : List Nat
deriving DecidableEq

/-- tensor.to(device): moves a tensor, leaving shape and contents intact. -/
def Tensor.to_dev (t : Tensor) (d : Device) : Tensor :=
  { t with device := d }

/-- tensor.unsqueeze(0): prepends a dimension of size 1. -/
def Tensor.unsqueeze0 (t : Tensor) : Tensor :=
  { t with shape := 1 :: t.shape }

/-- tensor.squeeze(): drops every dimension of size 1. -/
def Tensor.squeeze (t : Tensor) : Tensor :=
  { t with shape := t.shape.filter (fun n => n != 1) }

/-- A numpy array as obtained from tensor.numpy(). -/
structure NpArr where
  shape : List Nat
  contents : List Nat
deriving DecidableEq

/-- tensor.numpy(), composed with .data (which is the identity on the
abstracted tensors). -/
def Tensor.numpy (t : Tensor) : NpArr :=
  { shape := t.shape, contents := t.contents }

/-- The wrapped TorchVGSLModel (kraken.lib.vgsl, external to models.py):
its codec, its train/eval mode, its device, the inner module nn.nn as a
function on tensors, the Python truthiness of the object (read by the
"if not nn" check in load_any), and an identity tag distinguishing distinct
loaded objects. -/
structure Net where
  codec : Codec
  mode : Mode
  device : Device
  truthy : Bool
  tag : Nat
  run : Tensor → Tensor

/-- nn.train(). -/
def Net.trainMode (n : Net) : Net := { n with mode := Mode.trainM }

/-- nn.eval(). -/
def Net.evalMode (n : Net) : Net := { n with mode := Mode.evalM }

/-- nn.to(device). -/
def Net.to_dev (n : Net) (d : Device) : Net := { n with device := d }

/-- The exceptions observable in models.py. Exceptions raised inside the
external loaders are abstracted to Exc.other with an identifying number. -/
inductive Exc where
  | krakenInvalidModelException : String → Exc
  | krakenInputException : String → Exc
  | indexError : Exc
  | other : Nat → Exc
deriving DecidableEq

/-- kraken.lib.models.TorchSeqRecognizer: its attributes. kind is set (only)
by load_any and outputs is set (only) by forward, so both start out absent. -/
structure TorchSeqRecognizer where
  nn : Net
  codec : Codec
  decoder : NpArr → List LTuple
  train : Bool
  device : Device
  kind : Option String
  outputs : Option NpArr

/-- TorchSeqRecognizer.__init__ (models.py lines 27-47): store the network,
toggle it into train or eval mode, take the codec from the network, store the
decoder, the train flag and the device, and move the network to the device. -/
def TorchSeqRecognizer.init (nn0 : Net) (decoder : NpArr → List LTuple)
    (train : Bool) (device : Device) : TorchSeqRecognizer :=
  let nn1 := if train then nn0.trainMode else nn0.evalMode
  let c := nn1.codec
  let nn2 := nn1.to_dev device
  { nn := nn2, codec := c, decoder := decoder, train := train, device := device,
    kind := none, outputs := none }

/-- TorchSeqRecognizer.to (lines 49-54): store the device and delegate the
move to the network. -/
def TorchSeqRecognizer.to_dev (r : TorchSeqRecognizer) (d : Device) :
    TorchSeqRecognizer :=
  { r with device := d, nn := r.nn.to_dev d }

/-- The tensor handed to the inner module by forward (lines 62-63):
line.to(self.device) followed by unsqueeze(0), turning CHW into 1CHW. -/
def netInput (r : TorchSeqRecognizer) (line : Tensor) : Tensor :=
  (line.to_dev r.device).unsqueeze0

/-- TorchSeqRecognizer.forward (lines 56-68): run the inner module on the
batched input; raise KrakenInputException unless dimension 2 of the output is
1 (o.size(2) itself raises IndexError when the output has fewer than three
dimensions); store o.data.squeeze().numpy() in self.outputs and return it.
The recognizer with the mutated outputs attribute is returned alongside. -/
def TorchSeqRecognizer.forward (r : TorchSeqRecognizer) (line : Tensor) :
    Except Exc (NpArr × TorchSeqRecognizer) :=
  let o := r.nn.run (netInput r line)
  match o.shape.get? 2 with
  | none => Except.error Exc.indexError
  | some s =>
    if s ≠ 1 then
      Except.error (Exc.krakenInputException
        ("Expected dimension 3 to be 1, actual " ++ toString o.shape))
    else
      let out := o.squeeze.numpy
      Except.ok (out, { r with outputs := some out })

/-- TorchSeqRecognizer.predict (lines 70-78): forward pass, decode the
activations to locations, translate the locations through the codec. -/
def TorchSeqRecognizer.predict (r : TorchSeqRecognizer) (line : Tensor) :
    Except Exc (List DTuple × TorchSeqRecognizer) :=
  match r.forward line with
  | Except.error e => Except.error e
  | Except.ok (o, r1) =>
    let locs := r1.decoder o
    Except.ok (r1.codec.decode locs, r1)

/-- TorchSeqRecognizer.predict_string (lines 80-88): forward pass, decode,
translate through the codec, join the text pieces. -/
def TorchSeqRecognizer.predict_string (r : TorchSeqRecognizer) (line : Tensor) :
    Except Exc (String × TorchSeqRecognizer) :=
  match r.forward line with
  | Except.error e => Except.error e
  | Except.ok (o, r1) =>
    let locs := r1.decoder o
    let decoding := r1.codec.decode locs
    Except.ok (String.join (decoding.map (fun x => x.1)), r1)

/-- TorchSeqRecognizer.predict_labels (lines 90-97): forward pass, then the
raw decoder output with no codec translation. -/
def TorchSeqRecognizer.predict_labels (r : TorchSeqRecognizer) (line : Tensor) :
    Except Exc (List LTuple × TorchSeqRecognizer) :=
  match r.forward line with
  | Except.error e => Except.error e
  | Except.ok (o, r1) => Except.ok (r1.decoder o, r1)

/-- The external collaborators of load_any: the os.path normalization
primitives, the four TorchVGSLModel loaders (raising modelled as
Except.error), and the default decoder kraken.lib.ctc_decoder.greedy_decoder
passed to the recognizer constructor. -/
structure Env where
  expanduser : String → String
  expandvars : String → String
  abspath : String → String
  load_model : String → Except Exc Net
  load_clstm_model : String → Except Exc Net
  load_pronn_model : String → Except Exc Net
  load_pyrnn_model : String → Except Exc Net
  greedy_decoder : NpArr → List LTuple

/-- The path normalization performed by load_any (line 126):
abspath(expandvars(expanduser(fname))). -/
def normPath (E : Env) (fname : String) : String :=
  E.abspath (E.expandvars (E.expanduser fname))

/-- The try/except fallback chain of load_any (lines 128-142) at an already
normalized path, yielding the final (nn, kind) pair or the exception that
escapes. Translated exactly from the source nesting: the pronn attempt (line
136) runs inside the clstm except-handler without a try of its own, so a pronn
exception escapes the chain; the pyrnn attempt (lines 138-142) runs whenever
the vgsl attempt failed, even after a clstm or pronn success, overwriting nn
and kind when it succeeds. -/
def load_chain (E : Env) (p : String) : Except Exc (Net × String) :=
  match E.load_model p with
  | Except.ok n => Except.ok (n, "vgsl")
  | Except.error _ =>
    let inner : Except Exc (Net × String) :=
      match E.load_clstm_model p with
      | Except.ok n => Except.ok (n, "clstm")
      | Except.error _ =>
        match E.load_pronn_model p with
        | Except.ok n => Except.ok (n, "pronn")
        | Except.error e => Except.error e
    match inner with
    | Except.error e => Except.error e
    | Except.ok st =>
      match E.load_pyrnn_model p with
      | Except.ok n => Except.ok (n, "pyrnn")
      | Except.error _ => Except.ok st

/-- The body of load_any after path normalization (lines 128-147): run the
fallback chain at path p, raise KrakenInvalidModelException when the loaded
nn is falsy (Python "if not nn"), otherwise construct the recognizer with the
default decoder and device and set its kind attribute. -/
def load_any_core (E : Env) (p : String) (train : Bool) :
    Except Exc TorchSeqRecognizer :=
  match load_chain E p with
  | Except.error e => Except.error e
  | Except.ok (n, kind) =>
    if n.truthy then
      Except.ok { TorchSeqRecognizer.init n E.greedy_decoder train "cpu" with
                  kind := some kind }
    else
      Except.error (Exc.krakenInvalidModelException
        ("File " ++ p ++ " not loadable by any parser."))

/-- kraken.lib.models.load_any (lines 100-147): normalize the path with
abspath(expandvars(expanduser(fname))), run the loader fallback chain on the
normalized path, raise KrakenInvalidModelException when nothing truthy was
loaded, and return the recognizer tagged with the loader kind. -/
def load_any (E : Env) (fname : String) (train : Bool) :
    Except Exc TorchSeqRecognizer :=
  let fname1 := E.abspath (E.expandvars (E.expanduser fname))
  match load_chain E fname1 with
  | Except.error e => Except.error e
  | Except.ok (n, kind) =>
    if n.truthy then
      Except.ok { TorchSeqRecognizer.init n E.greedy_decoder train "cpu" with
                  kind := some kind }
    else
      Except.error (Exc.krakenInvalidModelException
        ("File " ++ fname1 ++ " not loadable by any parser."))

/-- The kind attribute of the recognizer produced by a load attempt. -/
def recKind (x : Except Exc TorchSeqRecognizer) : Except Exc (Option String) :=
  x.map (fun r => r.kind)

/-- The identity tag of the network inside the recognizer produced by a load
attempt. -/
def recTag (x : Except Exc TorchSeqRecognizer) : Except Exc Nat :=
  x.map (fun r => r.nn.tag)

/-! Concrete fixtures used by the closed evaluation theorems and witnesses. -/

/-- A concrete codec: class 1 decodes to "a", every other class to "b". -/
def sampleCodec : Codec :=
  ⟨fun ls => ls.map (fun t => (if t.1 = 1 then "a" else "b", t.2.1, t.2.2.1, t.2.2.2))⟩

/-- A concrete inner-module output: an NCHW tensor of shape (1, 2, 1, 4). -/
def sampleOut : Tensor :=
  { shape := [1, 2, 1, 4], device := "cpu", contents := [3, 1, 4, 1, 5, 9, 2, 6] }

/-- A concrete network whose inner module always yields sampleOut. -/
def sampleNet : Net :=
  { codec := sampleCodec, mode := Mode.evalM, device := "meta", truthy := true,
    tag := 0, run := fun _ => sampleOut }

/-- A concrete decoding function: two fixed location tuples. -/
def sampleDecoder : NpArr → List LTuple :=
  fun _ => [(1, 0, 2, 9), (2, 2, 4, 8)]

/-- A concrete recognizer over sampleNet. -/
def sampleRec : TorchSeqRecognizer :=
  TorchSeqRecognizer.init sampleNet sampleDecoder false "cpu"

/-- A concrete input line tensor of shape (C, H, W) = (2, 3, 4). -/
def sampleLine : Tensor :=
  { shape := [2, 3, 4], device := "cpu", contents := [7] }

/-- o.data.squeeze().numpy() of sampleOut: shape (2, 4). -/
def sampleArr : NpArr :=
  { shape := [2, 4], contents := [3, 1, 4, 1, 5, 9, 2, 6] }

/-- sampleRec after a successful forward pass. -/
def sampleRecAfter : TorchSeqRecognizer :=
  { sampleRec with outputs := some sampleArr }

/-- An output array left over from an earlier, different forward pass. -/
def staleArr : NpArr := { shape := [9], contents := [9] }

/-- sampleRec carrying a stale outputs attribute from an earlier call. -/
def sampleRecStale : TorchSeqRecognizer :=
  { sampleRec with outputs := some staleArr }

/-- A loader environment (identity path functions) in which every loader
raises; the opaque exceptions 1-4 identify which loader raised. -/
def envAllFail : Env :=
  { expanduser := fun s => s, expandvars := fun s => s, abspath := fun s => s,
    load_model := fun _ => Except.error (Exc.other 1),
    load_clstm_model := fun _ => Except.error (Exc.other 2),
    load_pronn_model := fun _ => Except.error (Exc.other 3),
    load_pyrnn_model := fun _ => Except.error (Exc.other 4),
    greedy_decoder := fun _ => [] }

/-- The network produced by the clstm loader in envOverride. -/
def netA : Net :=
  { codec := sampleCodec, mode := Mode.evalM, device := "cpu", truthy := true,
    tag := 1, run := fun t => t }

/-- The network produced by the pyrnn loader in envOverride. -/
def netB : Net :=
  { codec := sampleCodec, mode := Mode.evalM, device := "cpu", truthy := true,
    tag := 2, run := fun t => t }

/-- A loader environment (identity path functions) in which the vgsl loader
raises, the clstm loader succeeds with netA, the pronn loader raises, and the
pyrnn loader succeeds with netB. -/
def envOverride : Env :=
  { expanduser := fun s => s, expandvars := fun s => s, abspath := fun s => s,
    load_model := fun _ => Except.error (Exc.other 1),
    load_clstm_model := fun _ => Except.ok netA,
    load_pronn_model := fun _ => Except.error (Exc.other 3),
    load_pyrnn_model := fun _ => Except.ok netB,
    greedy_decoder := fun _ => [] }

/-- Modelled from the spec: the network container (kraken.lib.vgsl, not under
src/) executes on the batched NCHW input and yields per-timestep class scores
as an NCHW tensor; the spec states the output's third dimension is the height,
collapsed to 1, with one column of output per timestep, so on a single-sample
batch the output has shape (1, classes, 1, width). -/
def specNet (classes width : Nat) (cd : Codec) : Net :=
  { codec := cd, mode := Mode.evalM, device := "cpu", truthy := true, tag := 0,
    run := fun _ =>
      { shape := [1, classes, 1, width], device := "cpu", contents := [] } }

/-- A concrete recognizer over a spec-modelled network with 3 classes and
width 5. -/
def c6rec : TorchSeqRecognizer :=
  TorchSeqRecognizer.init (specNet 3 5 sampleCodec) sampleDecoder false "cpu"

/-! Theorems. -/

/-- Claim C1: the claim states that when every loader fails, load_any raises
KrakenInvalidModelException and no other exception escapes. The code does not
do this: in envAllFail every loader raises (opaque exceptions 1-4), and
load_any propagates the pronn loader's raw exception (Exc.other 3) — the
pronn attempt at models.py line 136 sits inside the clstm except-handler
without a try of its own, so its exception escapes before the pyrnn attempt
and before the KrakenInvalidModelException raise at line 144 are reached. -/
theorem c1_all_fail_propagates_pronn_exception :
    load_any envAllFail "model" false = Except.error (Exc.other 3) := rfl

/-- Claim C2 counterexample: the claim states load_any returns the first
successful loader's result. In envOverride the clstm loader (second in order)
succeeds with netA (tag 1), yet load_any returns the pyrnn loader's network
netB (tag 2) tagged "pyrnn": the pyrnn attempt runs even after a clstm
success and overwrites it. -/
theorem c2_counterexample :
    envOverride.load_clstm_model "model" = Except.ok netA ∧
    recKind (load_any envOverride "model" false) = Except.ok (some "pyrnn") ∧
    recTag (load_any envOverride "model" false) = Except.ok 2 ∧
    ((2 : Nat) == 1) = false :=
  ⟨rfl, rfl, rfl, rfl⟩

/-- Claim C2 (amended): load_any tries the vgsl loader first and returns its
result when it succeeds. Otherwise it tries clstm, then pronn only when clstm
failed (a pronn exception escaping unwrapped), and then pyrnn regardless of a
clstm or pronn success; a successful pyrnn attempt overrides the earlier
legacy result. The kind attribute always names the loader that produced the
returned network. (All loaded networks are assumed truthy, as Python objects
are by default.) -/
theorem c2_amended_order (E : Env) (fname : String) (train : Bool) :
    (∀ n, E.load_model (normPath E fname) = Except.ok n → n.truthy = true →
      recKind (load_any E fname train) = Except.ok (some "vgsl") ∧
      recTag (load_any E fname train) = Except.ok n.tag) ∧
    (∀ e n m, E.load_model (normPath E fname) = Except.error e →
      E.load_clstm_model (normPath E fname) = Except.ok n →
      E.load_pyrnn_model (normPath E fname) = Except.ok m → m.truthy = true →
      recKind (load_any E fname train) = Except.ok (some "pyrnn") ∧
      recTag (load_any E fname train) = Except.ok m.tag) ∧
    (∀ e n e2, E.load_model (normPath E fname) = Except.error e →
      E.load_clstm_model (normPath E fname) = Except.ok n →
      E.load_pyrnn_model (normPath E fname) = Except.error e2 → n.truthy = true →
      recKind (load_any E fname train) = Except.ok (some "clstm") ∧
      recTag (load_any E fname train) = Except.ok n.tag) ∧
    (∀ e e1 n m, E.load_model (normPath E fname) = Except.error e →
      E.load_clstm_model (normPath E fname) = Except.error e1 →
      E.load_pronn_model (normPath E fname) = Except.ok n →
      E.load_pyrnn_model (normPath E fname) = Except.ok m → m.truthy = true →
      recKind (load_any E fname train) = Except.ok (some "pyrnn") ∧
      recTag (load_any E fname train) = Except.ok m.tag) ∧
    (∀ e e1 n e2, E.load_model (normPath E fname) = Except.error e →
      E.load_clstm_model (normPath E fname) = Except.error e1 →
      E.load_pronn_model (normPath E fname) = Except.ok n →
      E.load_pyrnn_model (normPath E fname) = Except.error e2 → n.truthy = true →
      recKind (load_any E fname train) = Except.ok (some "pronn") ∧
      recTag (load_any E fname train) = Except.ok n.tag) ∧
    (∀ e e1 e2, E.load_model (normPath E fname) = Except.error e →
      E.load_clstm_model (normPath E fname) = Except.error e1 →
      E.load_pronn_model (normPath E fname) = Except.error e2 →
      load_any E fname train = Except.error e2) := by
  unfold load_any load_chain recKind recTag normPath TorchSeqRecognizer.init
    Net.trainMode Net.evalMode Net.to_dev
  cases train <;> refine ⟨?_, ?_, ?_, ?_, ?_, ?_⟩ <;> intros <;>
    simp_all [Except.map]

/-- Claim C2 witness: the amended order theorem applied to envOverride, where
vgsl fails, clstm succeeds with netA and pyrnn succeeds with netB: the result
is pyrnn's network. -/
theorem c2_amended_order_witness :
    recKind (load_any envOverride "model" false) = Except.ok (some "pyrnn") ∧
    recTag (load_any envOverride "model" false) = Except.ok 2 :=
  (c2_amended_order envOverride "model" false).2.1 (Exc.other 1) netA netB
    rfl rfl rfl rfl

/-- Claim C3: forward batches the (C, H, W) input into (1, C, H, W) before
invoking the network, and — whenever the network output has a third dimension
at all — raises KrakenInputException exactly when that dimension (size(2)) is
not 1, succeeding otherwise with the squeezed numpy array stored in
self.outputs. -/
theorem c3_forward_batch_and_shape_check (r : TorchSeqRecognizer)
    (line : Tensor) (s : Nat)
    (h : (r.nn.run (netInput r line)).shape.get? 2 = some s) :
    (netInput r line).shape = 1 :: line.shape ∧
    (s ≠ 1 → r.forward line = Except.error (Exc.krakenInputException
      ("Expected dimension 3 to be 1, actual " ++
        toString (r.nn.run (netInput r line)).shape))) ∧
    (s = 1 → r.forward line = Except.ok
      ((r.nn.run (netInput r line)).squeeze.numpy,
        { r with outputs := some (r.nn.run (netInput r line)).squeeze.numpy })) := by
  have h' : (r.nn.run (netInput r line)).shape[2]? = some s := by
    simpa [List.get?_eq_getElem?] using h
  refine ⟨rfl, ?_, ?_⟩ <;> intro hs <;>
    simp [TorchSeqRecognizer.forward, h', hs]

/-- Claim C3 witness: on sampleRec the network output has shape (1, 2, 1, 4),
so size(2) = 1 and forward succeeds, batching the (2, 3, 4) line into
(1, 2, 3, 4). -/
theorem c3_forward_batch_and_shape_check_witness :
    (netInput sampleRec sampleLine).shape = 1 :: sampleLine.shape ∧
    sampleRec.forward sampleLine = Except.ok (sampleArr, sampleRecAfter) :=
  ⟨(c3_forward_batch_and_shape_check sampleRec sampleLine 1 rfl).1,
   (c3_forward_batch_and_shape_check sampleRec sampleLine 1 rfl).2.2 rfl⟩

/-- Claim C4: whenever predict succeeds, predict_string returns exactly the
concatenation of the first (text) component of each tuple predict returns for
the same input. -/
theorem c4_predict_string_is_concat (r : TorchSeqRecognizer) (line : Tensor)
    (dec : List DTuple) (r1 : TorchSeqRecognizer)
    (h : r.predict line = Except.ok (dec, r1)) :
    r.predict_string line =
      Except.ok (String.join (dec.map (fun x => x.1)), r1) := by
  unfold TorchSeqRecognizer.predict at h
  unfold TorchSeqRecognizer.predict_string
  cases hf : r.forward line with
  | error e => rw [hf] at h; cases h
  | ok p =>
    rw [hf] at h
    simp only [Except.ok.injEq, Prod.mk.injEq] at h
    obtain ⟨hd, hr⟩ := h
    subst hd; subst hr; rfl

/-- Claim C4 witness: on sampleRec, predict yields the tuples for "a" and "b"
and predict_string yields their concatenation. -/
theorem c4_predict_string_is_concat_witness :
    sampleRec.predict_string sampleLine = Except.ok ("ab", sampleRecAfter) :=
  c4_predict_string_is_concat sampleRec sampleLine
    [("a", 0, 2, 9), ("b", 2, 4, 8)] sampleRecAfter rfl

/-- Claim C5: load_any normalizes the path with the composition
abspath(expandvars(expanduser(fname))) before any load attempt: it behaves
exactly as its post-normalization body (load_any_core, in which every loader
is invoked on the given path) applied to the normalized path. -/
theorem c5_normalization_before_load (E : Env) (fname : String)
    (train : Bool) :
    load_any E fname train =
      load_any_core E (E.abspath (E.expandvars (E.expanduser fname))) train :=
  rfl

/-- Claim C6: the claim (and forward's own docstring) state that forward
returns an array of shape (W, C), width by classes. With the network output
modelled from the spec as NCHW (1, classes, 1, width) — here (1, 3, 1, 5) —
forward returns the squeezed array of shape (3, 5) = (classes, width): the
source applies no transpose after squeeze, so the two dimensions come out in
the opposite order from the documented one. -/
theorem c6_forward_shape_at_failing_input :
    (c6rec.forward sampleLine).map (fun p => p.1.shape) = Except.ok [3, 5] ∧
    (([3, 5] : List Nat) == [5, 3]) = false :=
  ⟨rfl, rfl⟩

/-- Claim C7: constructing the recognizer with train true or false puts the
underlying network into train or eval mode respectively, stores the flag, and
leaves the codec identity unchanged: the recognizer's codec (and the
network's) is exactly the codec associated with the loaded network. -/
theorem c7_train_mode_and_codec_identity (nn0 : Net)
    (dec : NpArr → List LTuple) (t : Bool) (d : Device) :
    (TorchSeqRecognizer.init nn0 dec t d).nn.mode =
      (if t then Mode.trainM else Mode.evalM) ∧
    (TorchSeqRecognizer.init nn0 dec t d).codec = nn0.codec ∧
    (TorchSeqRecognizer.init nn0 dec t d).nn.codec = nn0.codec ∧
    (TorchSeqRecognizer.init nn0 dec t d).train = t := by
  cases t <;>
    simp [TorchSeqRecognizer.init, Net.trainMode, Net.evalMode, Net.to_dev]

/-- Claim C8: whenever forward succeeds, predict_labels returns exactly the
recognizer's decoding function applied to the forward output, with no codec
translation. -/
theorem c8_predict_labels_is_raw_decoder (r : TorchSeqRecognizer)
    (line : Tensor) (o : NpArr) (r1 : TorchSeqRecognizer)
    (h : r.forward line = Except.ok (o, r1)) :
    r.predict_labels line = Except.ok (r1.decoder o, r1) := by
  unfold TorchSeqRecognizer.predict_labels
  rw [h]

/-- Claim C8 witness: on sampleRec, predict_labels returns the two raw
decoder location tuples, untranslated. -/
theorem c8_predict_labels_is_raw_decoder_witness :
    sampleRec.predict_labels sampleLine =
      Except.ok ([(1, 0, 2, 9), (2, 2, 4, 8)], sampleRecAfter) :=
  c8_predict_labels_is_raw_decoder sampleRec sampleLine sampleArr
    sampleRecAfter rfl

/-- Claim C9: every successful forward pass — including the ones made
internally by predict, predict_string and predict_labels — stores the
converted output array in the recognizer's outputs attribute, overwriting
whatever a previous call stored. -/
theorem c9_forward_stores_outputs (r : TorchSeqRecognizer) (line : Tensor)
    (o : NpArr) (r1 : TorchSeqRecognizer)
    (h : r.forward line = Except.ok (o, r1)) :
    r1.outputs = some o ∧
    (r.predict line).map (fun p => p.2.outputs) = Except.ok (some o) ∧
    (r.predict_string line).map (fun p => p.2.outputs) = Except.ok (some o) ∧
    (r.predict_labels line).map (fun p => p.2.outputs) = Except.ok (some o) := by
  have hout : r1.outputs = some o := by
    unfold TorchSeqRecognizer.forward at h
    dsimp only at h
    split at h
    · cases h
    · split at h
      · cases h
      · simp only [Except.ok.injEq, Prod.mk.injEq] at h
        obtain ⟨ho, hr⟩ := h
        subst ho; subst hr; rfl
  refine ⟨hout, ?_, ?_, ?_⟩ <;>
    simp [TorchSeqRecognizer.predict, TorchSeqRecognizer.predict_string,
      TorchSeqRecognizer.predict_labels, h, Except.map, hout]

/-- Claim C9 witness: starting from a recognizer holding a stale outputs
array, a forward pass (directly and through each predict variant) overwrites
it with the new converted output. -/
theorem c9_forward_stores_outputs_witness :
    ({ sampleRecStale with outputs := some sampleArr } :
        TorchSeqRecognizer).outputs = some sampleArr ∧
    (sampleRecStale.predict sampleLine).map (fun p => p.2.outputs) =
      Except.ok (some sampleArr) ∧
    (sampleRecStale.predict_string sampleLine).map (fun p => p.2.outputs) =
      Except.ok (some sampleArr) ∧
    (sampleRecStale.predict_labels sampleLine).map (fun p => p.2.outputs) =
      Except.ok (some sampleArr) :=
  c9_forward_stores_outputs sampleRecStale sampleLine sampleArr
    { sampleRecStale with outputs := some sampleArr } rfl

/-- Claim C10: to(device) stores the device on the recognizer and delegates
the move to the network (the same network object, moved), leaving the codec,
decoder, train flag, kind and outputs untouched; a subsequent forward call
hands the network the input moved to the stored device (then batched). -/
theorem c10_to_device_frame (r : TorchSeqRecognizer) (d : Device) :
    (r.to_dev d).device = d ∧
    (r.to_dev d).nn = r.nn.to_dev d ∧
    (r.to_dev d).codec = r.codec ∧
    (r.to_dev d).decoder = r.decoder ∧
    (r.to_dev d).train = r.train ∧
    (r.to_dev d).kind = r.kind ∧
    (r.to_dev d).outputs = r.outputs ∧
    (∀ line : Tensor, netInput (r.to_dev d) line = (line.to_dev d).unsqueeze0) :=
  ⟨rfl, rfl, rfl, rfl, rfl, rfl, rfl, fun _ => rfl⟩

end Kraken
